import Mathlib

set_option maxRecDepth 8000

/- Verification development for the poker repository.

Shallow embedding of the two core source modules:
  * src/backend/poker_engine.py      (hand/table engine)
  * pokerAI_coach_backend/poker_coach.py  (hand-strength and advisory engine)

Conventions of the embedding:
  * Python ints become `Int` (chips, amounts) or `Nat` (indices, seats, counts).
  * Python floats become `Rat`; `int(x)` is truncation toward zero (`qtrunc`).
  * A card string such as "Ah" becomes a `Card` record of its two characters.
  * Calls to random.random / random.uniform / random.choice / random.shuffle are
    explicit oracle parameters, so that theorems quantify over every draw.
  * Python exceptions on malformed internal state (empty deck, missing seat,
    unpack failure) are modelled by a skip or an `Option`; each such point is
    marked with a comment and is unreachable from the public operations on
    well-formed games.
-/

-- ---------- generic helpers ----------

/-- Truncation toward zero of a rational, the meaning of Python `int(x)`. -/
def qtrunc (q : ℚ) : ℤ := Int.tdiv q.num (q.den : ℤ)

/-- Python `min` on two floats (kernel-computable form of `min` on ℚ). -/
def qmin (a b : ℚ) : ℚ := if a ≤ b then a else b

/-- Python `max` on two floats (kernel-computable form of `max` on ℚ). -/
def qmax (a b : ℚ) : ℚ := if b ≤ a then a else b

/-- In-place mutation of the i-th list element, the meaning of Python's
assignment through an aliased list element. -/
def listModify (f : α → α) : ℕ → List α → List α
  | _, [] => []
  | 0, a :: as => f a :: as
  | n + 1, a :: as => a :: listModify f n as

def insertSorted (x : ℕ) : List ℕ → List ℕ
  | [] => [x]
  | y :: ys => if x ≤ y then x :: y :: ys else y :: insertSorted x ys

/-- Ascending insertion sort on naturals, the meaning of Python `sorted`. -/
def sortNat (l : List ℕ) : List ℕ := l.foldr insertSorted []

def dedupSorted : List ℕ → List ℕ
  | [] => []
  | [x] => [x]
  | x :: y :: ys => if x = y then dedupSorted (y :: ys) else x :: dedupSorted (y :: ys)

/-- `sorted(set(l))` on naturals. -/
def sortedDedup (l : List ℕ) : List ℕ := dedupSorted (sortNat l)

/-- Position of `x` in `l` (length of `l` when absent); Python `list.index`
raises when absent, and every call site guards with a membership test. -/
def idx_of (x : ℕ) : List ℕ → ℕ
  | [] => 0
  | y :: ys => if y = x then 0 else idx_of x ys + 1

/-- Position of a character in a character list; Python `str.index` raises when
absent, and every call site passes a character of the string. -/
def char_idx (c : Char) : List Char → ℕ
  | [] => 0
  | d :: ds => if d = c then 0 else char_idx c ds + 1

/-- First index satisfying a predicate. -/
def findIdxP (pred : α → Bool) : List α → Option ℕ
  | [] => none
  | a :: as => if pred a then some 0 else (findIdxP pred as).map (· + 1)

/-- Keep the first occurrence of each element, in order of first appearance:
the key order of a Python dict built by repeated insertion. -/
def dedupFirst [DecidableEq α] : List α → List α
  | [] => []
  | a :: as => a :: (dedupFirst as).filter (fun b => b ≠ a)

-- ---------- cards ----------

/-- A two-character card string such as "Ah": rank character and suit character. -/
structure Card where
  rank : Char
  suit : Char
deriving DecidableEq, Repr, Inhabited

def RANKS : String := "23456789TJQKA"

def SUITS : String := "shdc"

/-- `RANKS.index(c)` from the source. -/
def rank_index (c : Char) : ℕ := char_idx c RANKS.toList

-- ---------- poker_coach.py : data model ----------

/-- Structured coaching advice (dataclass CoachAdvice). -/
structure CoachAdvice where
  recommendation : String
  reasoning : String
  pot_odds : Option ℚ := none
  equity_estimate : Option ℚ := none
  hand_strength : Option String := none
  outs : Option ℕ := none
  confidence : String := "medium"
  alternative : Option String := none
deriving DecidableEq, Repr

/-- PokerCoach._build_preflop_ranges: position-keyed opening ranges. -/
def build_preflop_ranges : List (String × List String) :=
  [("UTG",
    ["AA", "KK", "QQ", "JJ", "TT", "99",
     "AKs", "AQs", "AJs", "AKo", "AQo"]),
   ("MP",
    ["AA", "KK", "QQ", "JJ", "TT", "99", "88", "77",
     "AKs", "AQs", "AJs", "ATs", "KQs", "KJs", "QJs",
     "AKo", "AQo", "AJo", "KQo"]),
   ("CO",
    ["AA", "KK", "QQ", "JJ", "TT", "99", "88", "77", "66", "55",
     "AKs", "AQs", "AJs", "ATs", "A9s", "A8s", "A5s", "A4s", "A3s", "A2s",
     "KQs", "KJs", "KTs", "QJs", "QTs", "JTs", "T9s", "98s",
     "AKo", "AQo", "AJo", "ATo", "KQo", "KJo", "QJo"]),
   ("BTN",
    ["AA", "KK", "QQ", "JJ", "TT", "99", "88", "77", "66", "55", "44", "33", "22",
     "AKs", "AQs", "AJs", "ATs", "A9s", "A8s", "A7s", "A6s", "A5s", "A4s", "A3s", "A2s",
     "KQs", "KJs", "KTs", "K9s", "QJs", "QTs", "Q9s", "JTs", "J9s", "T9s", "T8s", "98s", "87s", "76s",
     "AKo", "AQo", "AJo", "ATo", "A9o", "KQo", "KJo", "KTo", "QJo", "QTo", "JTo"]),
   ("SB",
    ["AA", "KK", "QQ", "JJ", "TT", "99", "88", "77", "66", "55", "44", "33", "22",
     "AKs", "AQs", "AJs", "ATs", "A9s", "A8s", "A7s", "A6s", "A5s", "A4s", "A3s", "A2s",
     "KQs", "KJs", "KTs", "K9s", "K8s", "QJs", "QTs", "Q9s", "JTs", "J9s", "T9s", "T8s", "98s", "87s",
     "AKo", "AQo", "AJo", "ATo", "A9o", "A8o", "KQo", "KJo", "KTo", "QJo"])]

/-- The advisory object: its only state is the range table built at init. -/
structure PokerCoach where
  preflop_ranges : List (String × List String)
deriving DecidableEq, Repr

/-- PokerCoach.__init__. -/
def mk_poker_coach : PokerCoach := { preflop_ranges := build_preflop_ranges }

/-- `self.preflop_ranges.get(position, self.preflop_ranges["MP"])`. -/
def range_get (ranges : List (String × List String)) (position : String) : List String :=
  match ranges.lookup position with
  | some r => r
  | none => (ranges.lookup "MP").getD []

/-- PokerCoach._hand_to_code: canonical code such as "AKs", "TT", "72o". -/
def hand_to_code (card1 card2 : Card) : String :=
  let r1 := card1.rank
  let s1 := card1.suit
  let r2 := card2.rank
  let s2 := card2.suit
  if r1 = r2 then String.mk [r1, r2]
  else
    let hl := if rank_index r1 > rank_index r2 then (r1, r2, s1, s2) else (r2, r1, s2, s1)
    let suited := hl.2.2.1 = hl.2.2.2
    String.mk [hl.1, hl.2.1] ++ (if suited then "s" else "o")

/-- PokerCoach._preflop_hand_strength. -/
def preflop_hand_strength (hand : List Card) : ℚ :=
  match hand with
  | [c1, c2] =>
    let r1 := c1.rank
    let s1 := c1.suit
    let r2 := c2.rank
    let s2 := c2.suit
    let i1 := rank_index r1
    let i2 := rank_index r2
    let base : ℚ := ((Nat.max i1 i2 : ℕ) : ℚ) / ((RANKS.length : ℚ) - 1)
    let base := base + (if r1 = r2 then (0.35 : ℚ) else 0)
    let base := base + (if s1 = s2 then (0.08 : ℚ) else 0)
    let base := base + (if ((i1 : ℤ) - (i2 : ℤ)).natAbs ≤ 3 then (0.05 : ℚ) else 0)
    let base := base + (if 8 ≤ i1 ∧ 8 ≤ i2 then (0.1 : ℚ) else 0)
    qmin 1 (qmax 0 base)
  | _ => 0

/-- Modelled from the spec: the C5 wording of the preflop score, which grants
the last bonus only when both cards rank Jack or higher (the code grants it
from Ten); stated for comparison with `preflop_hand_strength`. -/
def preflop_strength_per_claim (hand : List Card) : ℚ :=
  match hand with
  | [c1, c2] =>
    let i1 := rank_index c1.rank
    let i2 := rank_index c2.rank
    let base : ℚ := ((Nat.max i1 i2 : ℕ) : ℚ) / 12
    let base := base + (if c1.rank = c2.rank then (0.35 : ℚ) else 0)
    let base := base + (if c1.suit = c2.suit then (0.08 : ℚ) else 0)
    let base := base + (if ((i1 : ℤ) - (i2 : ℤ)).natAbs ≤ 3 then (0.05 : ℚ) else 0)
    let base := base + (if 9 ≤ i1 ∧ 9 ≤ i2 then (0.1 : ℚ) else 0)
    qmin 1 (qmax 0 base)
  | _ => 0

/-- PokerCoach._has_straight on the (possibly duplicated) rank-index list. -/
def has_straight (ranks : List ℕ) : Bool :=
  let unique_ranks := (sortedDedup ranks).reverse
  let wheel := ([12, 0, 1, 2, 3] : List ℕ).all (fun r => unique_ranks.contains r)
  let runs := (unique_ranks.zip (unique_ranks.drop 4)).any (fun p => p.1 - p.2 = 4)
  wheel || runs

/-- PokerCoach._has_open_ended_straight_draw. -/
def has_open_ended_straight_draw (ranks : List ℕ) : Bool :=
  let u := (sortedDedup ranks).reverse
  (u.zip (u.drop 3)).any (fun p => p.1 - p.2 = 3)

/-- PokerCoach._has_gutshot_draw. -/
def has_gutshot_draw (ranks : List ℕ) : Bool :=
  let u := (sortedDedup ranks).reverse
  (u.zip (u.drop 3)).any (fun p => p.1 - p.2 = 4)

/-- Result record of PokerCoach._analyze_postflop_hand. -/
structure HandAnalysis where
  strength : ℚ
  made_hand : Option String
  draw_type : Option String
  outs : ℕ
deriving DecidableEq, Repr

/-- The draw-detection block of _analyze_postflop_hand (source lines 448-472),
split out so its gate can be reasoned about: the flush-draw test is
unconditional, the straight-draw tests run only for weak made hands. -/
def draw_eval (made_hand : Option String) (max_same_suit : ℕ) (ranks : List ℕ) :
    Option String × ℕ :=
  let fd := max_same_suit = 4
  let d0 : Option String × ℕ := if fd then (some "Flush Draw", 9) else (none, 0)
  let is_weak : Bool :=
    match made_hand with
    | none => true
    | some m => (["Pair", "High Card"] : List String).contains m
  if is_weak then
    if has_open_ended_straight_draw ranks then
      if fd then (some "Combo Draw (Flush + Straight)", 15)
      else (some "Open-Ended Straight Draw", 8)
    else if has_gutshot_draw ranks then
      if fd then (some "Flush Draw + Gutshot", 12)
      else (some "Gutshot Straight Draw", 4)
    else d0
  else d0

/-- The per-rank dict counter of _analyze_postflop_hand, as a function. -/
def rank_count (all_cards : List Card) (r : Char) : ℕ :=
  (all_cards.filter (fun c => c.rank = r)).length

/-- `max(rank_counts.values()) if rank_counts else 0`; `dedupFirst` reproduces
the dict key order (first appearance). -/
def max_same_rank_of (all_cards : List Card) : ℕ :=
  ((dedupFirst (all_cards.map Card.rank)).map (rank_count all_cards)).foldr Nat.max 0

/-- `max(suit_counts.values()) if suit_counts else 0`. -/
def max_same_suit_of (all_cards : List Card) : ℕ :=
  ((dedupFirst (all_cards.map Card.suit)).map
    (fun s => (all_cards.filter (fun c => c.suit = s)).length)).foldr Nat.max 0

/-- The rank-index multiset of the cards, sorted descending. -/
def ranks_desc_of (all_cards : List Card) : List ℕ :=
  (sortNat (all_cards.map (fun c => rank_index c.rank))).reverse

/-- The made-hand block of _analyze_postflop_hand (source lines 410-446).
The loop of the Pair case assigns strength once per rank holding exactly two
cards, the last assignment surviving; `getLast?` reproduces that. The
empty-hand IndexError of `ranks[0]` is modelled by `headD 0` (unreachable:
callers pass at least the two hole cards). -/
def made_eval (all_cards : List Card) : Option String × ℚ :=
  let uniq_ranks := dedupFirst (all_cards.map Card.rank)
  let ranks_desc := ranks_desc_of all_cards
  let max_same_rank := max_same_rank_of all_cards
  let max_same_suit := max_same_suit_of all_cards
  if max_same_rank = 4 then (some "Quads", 0.95)
  else if max_same_rank = 3 then
    if 2 ≤ (uniq_ranks.filter (fun r => 2 ≤ rank_count all_cards r)).length then
      (some "Full House", 0.9)
    else (some "Three of a Kind", 0.65)
  else if 5 ≤ max_same_suit then (some "Flush", 0.8)
  else if has_straight ranks_desc then (some "Straight", 0.75)
  else if 2 ≤ (uniq_ranks.filter (fun r => rank_count all_cards r = 2)).length then
    (some "Two Pair", 0.55)
  else if max_same_rank = 2 then
    let pr : ℚ :=
      match (uniq_ranks.filter (fun r => rank_count all_cards r = 2)).getLast? with
      | some r => (0.25 : ℚ) + ((rank_index r : ℚ) / (RANKS.length : ℚ)) * 0.25
      | none => 0
    (some "Pair", pr)
  else (some "High Card", ((ranks_desc.headD 0 : ℕ) : ℚ) / (RANKS.length : ℚ) * 0.2)

/-- PokerCoach._analyze_postflop_hand: made-hand block followed by the draw
block on the same tallies. -/
def analyze_postflop_hand (hero_hand community_cards : List Card) : HandAnalysis :=
  let all_cards := hero_hand ++ community_cards
  let mh := made_eval all_cards
  let dr := draw_eval mh.1 (max_same_suit_of all_cards) (ranks_desc_of all_cards)
  { strength := mh.2, made_hand := mh.1, draw_type := dr.1, outs := dr.2 }

/-- PokerCoach._outs_to_probability. -/
def outs_to_probability (outs : ℕ) (cards_to_come : ℕ) : ℚ :=
  if cards_to_come = 2 then qmin 1 ((outs : ℚ) * 4 / 100)
  else if cards_to_come = 1 then qmin 1 ((outs : ℚ) * 2 / 100)
  else 0

/-- Python "{:.1%}" formatting on the exact rational (round half up; the source
formats a binary float with round-half-even, identical except on exact ties). -/
def fmt_pct (q : ℚ) : String :=
  let m : ℤ := ⌊q * 1000 + 1 / 2⌋
  toString (Int.tdiv m 10) ++ "." ++ toString ((Int.tmod m 10).natAbs) ++ "%"

/-- Python `str(x)` on an optional string (None prints as "None"). -/
def pyStr (o : Option String) : String := o.getD "None"

/-- Python `x in [...]` where `x` is an optional string (None is in no list). -/
def optIn (o : Option String) (l : List String) : Bool :=
  match o with
  | some m => l.contains m
  | none => false

/-- PokerCoach._preflop_advice. -/
def preflop_advice (ranges : List (String × List String)) (hero_hand : List Card)
    (pot current_bet hero_contribution hero_stack : ℤ) (position : String)
    (num_opponents : ℤ) : CoachAdvice :=
  match hero_hand with
  | [c1, c2] =>
    let hand_code := hand_to_code c1 c2
    let to_call := current_bet - hero_contribution
    let pos_range := range_get ranges position
    let strength := preflop_hand_strength [c1, c2]
    let facing_raise := 0 < to_call ∧ (pot : ℚ) * 0.1 < (current_bet : ℚ)
    if facing_raise then
      if (["AA", "KK", "QQ", "AKs", "AKo"] : List String).contains hand_code then
        { recommendation := "raise",
          reasoning := "Premium hand (" ++ hand_code ++ "). 3-bet for value. You have ~" ++
            toString (qtrunc (strength * 100)) ++ "% equity advantage.",
          equity_estimate := some strength,
          hand_strength := some "Premium",
          confidence := "high",
          alternative := some "Call to trap occasionally with AA/KK" }
      else if (["JJ", "TT", "AQs", "AQo", "KQs"] : List String).contains hand_code then
        let pot_odds : ℚ :=
          if 0 < pot + to_call then (to_call : ℚ) / ((pot + to_call : ℤ) : ℚ) else 0
        { recommendation := "call",
          reasoning := "Strong hand (" ++ hand_code ++ "). Call to see flop. Pot odds: " ++
            fmt_pct pot_odds ++ ", estimated equity: ~" ++ toString (qtrunc (strength * 100)) ++ "%",
          pot_odds := some pot_odds,
          equity_estimate := some strength,
          hand_strength := some "Strong",
          confidence := "medium",
          alternative := some "3-bet as a bluff occasionally" }
      else if (0.4 : ℚ) < strength then
        let pot_odds : ℚ :=
          if 0 < pot + to_call then (to_call : ℚ) / ((pot + to_call : ℤ) : ℚ) else 0
        if pot_odds < 0.35 ∧ num_opponents ≤ 2 then
          { recommendation := "call",
            reasoning := "Decent hand (" ++ hand_code ++ "). Pot odds " ++ fmt_pct pot_odds ++
              " are favorable for speculative call.",
            pot_odds := some pot_odds,
            equity_estimate := some strength,
            hand_strength := some "Marginal",
            confidence := "medium" }
        else
          { recommendation := "fold",
            reasoning := "Hand (" ++ hand_code ++ ") too weak facing raise from " ++
              toString num_opponents ++ " opponent(s). Pot odds " ++ fmt_pct pot_odds ++ " unfavorable.",
            pot_odds := some pot_odds,
            confidence := "medium" }
      else
        { recommendation := "fold",
          reasoning := "Weak hand (" ++ hand_code ++ "). Clear fold facing aggression.",
          confidence := "high" }
    else if to_call = 0 then
      if pos_range.contains hand_code then
        let bet_size : ℚ := qmax ((pot : ℚ) * 2.5) ((hero_stack : ℚ) * 0.15)
        { recommendation := "bet",
          reasoning := "Strong hand for " ++ position ++ " (" ++ hand_code ++
            "). Open-raise to build pot and take initiative.",
          hand_strength := some "In range",
          confidence := "high",
          alternative := some ("Suggested bet size: ~$" ++ toString (qtrunc bet_size)) }
      else
        { recommendation := "fold",
          reasoning := "Hand (" ++ hand_code ++ ") below opening range for " ++ position ++
            ". Fold and wait for better spot.",
          confidence := "high",
          alternative := some "Could consider limping in SB/BB" }
    else
      let pot_odds : ℚ :=
        if 0 < pot + to_call then (to_call : ℚ) / ((pot + to_call : ℤ) : ℚ) else 0
      if pot_odds < strength ∨ pot_odds < 0.25 then
        { recommendation := "call",
          reasoning := "Getting good pot odds (" ++ fmt_pct pot_odds ++ "). Hand strength ~" ++
            toString (qtrunc (strength * 100)) ++ "%. Call to see flop.",
          pot_odds := some pot_odds,
          equity_estimate := some strength,
          confidence := "medium" }
      else
        { recommendation := "fold",
          reasoning := "Pot odds (" ++ fmt_pct pot_odds ++ ") don\x27t justify call with weak hand.",
          pot_odds := some pot_odds,
          confidence := "medium" }
  | _ => { recommendation := "fold", reasoning := "Invalid hand", confidence := "high" }

/-- PokerCoach._postflop_advice. -/
def postflop_advice (hero_hand community_cards : List Card)
    (pot current_bet hero_contribution hero_stack : ℤ) (position street : String)
    (num_opponents : ℤ) : CoachAdvice :=
  let to_call := current_bet - hero_contribution
  let analysis := analyze_postflop_hand hero_hand community_cards
  let strength := analysis.strength
  let made_hand := analysis.made_hand
  let draw_type := analysis.draw_type
  let outs := analysis.outs
  let pot_odds : ℚ :=
    if 0 < pot + to_call ∧ 0 < to_call then (to_call : ℚ) / ((pot + to_call : ℤ) : ℚ) else 0
  let cards_to_come : ℕ := if street = "flop" then 2 else 1
  let win_probability := outs_to_probability outs cards_to_come
  if to_call = 0 then
    if optIn made_hand ["Straight", "Flush", "Full House", "Quads", "Straight Flush"] then
      { recommendation := "bet",
        reasoning := "Strong made hand (" ++ pyStr made_hand ++ "). Bet for value to build pot.",
        equity_estimate := some strength,
        hand_strength := made_hand,
        confidence := "high",
        alternative := some ("Suggested bet: " ++ toString (qtrunc ((pot : ℚ) * 0.6)) ++ "-" ++
          toString (qtrunc ((pot : ℚ) * 0.75)) ++ " (60-75% pot)") }
    else if optIn made_hand ["Three of a Kind", "Two Pair"] then
      { recommendation := "bet",
        reasoning := "Good hand (" ++ pyStr made_hand ++ "). Bet for value and protection.",
        equity_estimate := some strength,
        hand_strength := made_hand,
        confidence := "high",
        alternative := some ("Suggested bet: " ++ toString (qtrunc ((pot : ℚ) * 0.5)) ++ " (50% pot)") }
    else if made_hand = some "Pair" ∧ (0.4 : ℚ) < strength then
      { recommendation := "bet",
        reasoning := "Decent pair. Consider betting for thin value or as bluff. Fold equity against " ++
          toString num_opponents ++ " opponent(s).",
        equity_estimate := some strength,
        hand_strength := made_hand,
        confidence := "medium",
        alternative := some "Check is also fine to control pot size" }
    else if draw_type ≠ none ∧ 8 ≤ outs then
      { recommendation := "bet",
        reasoning := "Strong draw (" ++ pyStr draw_type ++ ", ~" ++ toString outs ++
          " outs). Semi-bluff to win now or improve. Win probability: " ++ fmt_pct win_probability,
        equity_estimate := some win_probability,
        hand_strength := draw_type,
        outs := some outs,
        confidence := "medium",
        alternative := some ("You improve on ~" ++ fmt_pct win_probability ++ " of run-outs") }
    else
      { recommendation := "check",
        reasoning := "Weak holding (" ++ made_hand.getD "High card" ++
          "). Check and see if you can improve cheaply.",
        equity_estimate := some strength,
        hand_strength := some (made_hand.getD "Weak"),
        confidence := "medium" }
  else
    if optIn made_hand ["Straight", "Flush", "Full House", "Quads", "Straight Flush"] then
      if (to_call : ℚ) < (hero_stack : ℚ) * 0.3 then
        { recommendation := "raise",
          reasoning := "Very strong hand (" ++ pyStr made_hand ++ "). Raise for value. Pot odds: " ++
            fmt_pct pot_odds,
          pot_odds := some pot_odds,
          equity_estimate := some 0.85,
          hand_strength := made_hand,
          confidence := "high" }
      else
        { recommendation := "call",
          reasoning := "Strong hand (" ++ pyStr made_hand ++ "). Call and consider raising later streets.",
          pot_odds := some pot_odds,
          equity_estimate := some 0.85,
          hand_strength := made_hand,
          confidence := "high" }
    else if optIn made_hand ["Three of a Kind", "Two Pair"] then
      if pot_odds < 0.4 then
        { recommendation := "call",
          reasoning := "Good hand (" ++ pyStr made_hand ++ "). Pot odds " ++ fmt_pct pot_odds ++
            " are favorable. Call and reassess.",
          pot_odds := some pot_odds,
          equity_estimate := some strength,
          hand_strength := made_hand,
          confidence := "high" }
      else
        { recommendation := "fold",
          reasoning := "Hand (" ++ pyStr made_hand ++ ") likely behind. Pot odds " ++
            fmt_pct pot_odds ++ " too expensive.",
          pot_odds := some pot_odds,
          confidence := "medium" }
    else if draw_type ≠ none ∧ 8 ≤ outs then
      if pot_odds < win_probability then
        { recommendation := "call",
          reasoning := "Strong " ++ pyStr draw_type ++ " (~" ++ toString outs ++ " outs, " ++
            fmt_pct win_probability ++ " to improve). Pot odds " ++ fmt_pct pot_odds ++
            " < equity " ++ fmt_pct win_probability ++ ". Profitable call!",
          pot_odds := some pot_odds,
          equity_estimate := some win_probability,
          hand_strength := draw_type,
          outs := some outs,
          confidence := "high" }
      else if pot_odds < win_probability * 1.3 then
        { recommendation := "call",
          reasoning := pyStr draw_type ++ " (" ++ toString outs ++ " outs). Close to pot odds (" ++
            fmt_pct pot_odds ++ " vs " ++ fmt_pct win_probability ++ "). Consider implied odds.",
          pot_odds := some pot_odds,
          equity_estimate := some win_probability,
          hand_strength := draw_type,
          outs := some outs,
          confidence := "medium",
          alternative := some "Fold if bet is very large relative to stack" }
      else
        { recommendation := "fold",
          reasoning := pyStr draw_type ++ " (" ++ toString outs ++ " outs, " ++
            fmt_pct win_probability ++ "). Pot odds " ++ fmt_pct pot_odds ++
            " too expensive without implied odds.",
          pot_odds := some pot_odds,
          equity_estimate := some win_probability,
          outs := some outs,
          confidence := "medium" }
    else
      if pot_odds < 0.15 ∧ num_opponents = 1 then
        { recommendation := "call",
          reasoning := "Weak hand but getting great pot odds (" ++ fmt_pct pot_odds ++
            "). Speculative call heads-up.",
          pot_odds := some pot_odds,
          equity_estimate := some strength,
          hand_strength := some (made_hand.getD "Weak"),
          confidence := "low" }
      else
        { recommendation := "fold",
          reasoning := "Weak holding (" ++ made_hand.getD "High card" ++ "). Pot odds " ++
            fmt_pct pot_odds ++ " don\x27t justify call.",
          pot_odds := some pot_odds,
          confidence := "high" }

/-- PokerCoach.get_advice. -/
def get_advice (coach : PokerCoach) (hero_hand community_cards : List Card)
    (pot current_bet hero_contribution hero_stack : ℤ) (position street : String)
    (num_opponents : ℤ) : CoachAdvice :=
  if street = "preflop" then
    preflop_advice coach.preflop_ranges hero_hand pot current_bet hero_contribution
      hero_stack position num_opponents
  else
    postflop_advice hero_hand community_cards pot current_bet hero_contribution
      hero_stack position street num_opponents

/-- PokerCoach.get_advice viewed as a method call: the source body reads
`self.preflop_ranges`, performs no assignment to `self` or any argument and
draws no randomness, so the post-call object is the unchanged receiver. -/
def get_advice_method (coach : PokerCoach) (hero_hand community_cards : List Card)
    (pot current_bet hero_contribution hero_stack : ℤ) (position street : String)
    (num_opponents : ℤ) : CoachAdvice × PokerCoach :=
  (get_advice coach hero_hand community_cards pot current_bet hero_contribution
    hero_stack position street num_opponents, coach)

-- ---------- poker_engine.py : cards, profiles, data structures ----------

/-- create_deck() before the shuffle: all 52 rank-suit combinations in source
order. The random.shuffle of the source is modelled by the `shuffled_deck`
parameter of `start_new_hand`; this constant is one admissible value of it. -/
def create_deck : List Card :=
  RANKS.toList.foldr (fun r acc => (SUITS.toList.map (fun s => Card.mk r s)) ++ acc) []

/-- Bot personality record (dataclass BotProfile). -/
structure BotProfile where
  name : String
  looseness : ℚ
  aggression : ℚ
  bluffiness : ℚ
deriving DecidableEq, Repr

/-- BOT_PROFILES: fixed personality table keyed by display name. -/
def BOT_PROFILES : List (String × BotProfile) :=
  [("Crusher Carl", ⟨"Crusher Carl", 0.25, 0.65, 0.15⟩),
   ("LAG Lucy", ⟨"LAG Lucy", 0.75, 0.85, 0.50⟩),
   ("Nit Neil", ⟨"Nit Neil", 0.15, 0.30, 0.05⟩),
   ("Reckless Rafa", ⟨"Reckless Rafa", 0.90, 0.95, 0.80⟩),
   ("Station Sam", ⟨"Station Sam", 0.80, 0.25, 0.10⟩),
   ("Balanced Ben", ⟨"Balanced Ben", 0.50, 0.60, 0.30⟩),
   ("Gambler Grace", ⟨"Gambler Grace", 0.80, 0.70, 0.60⟩)]

/-- Player record (dataclass Player). -/
structure Player where
  id : ℕ
  name : String
  is_human : Bool
  stack : ℤ
  seat : ℕ
  hole_cards : List Card := []
  in_hand : Bool := true
  has_folded : Bool := false
  has_all_in : Bool := false
  contribution_this_round : ℤ := 0
  total_contribution : ℤ := 0
  starting_stack : ℤ := 1000
  mood : String := "neutral"
deriving DecidableEq, Repr

instance : Inhabited Player := ⟨{ id := 0, name := "", is_human := false, stack := 0, seat := 0 }⟩

/-- Player.profile: lookup of the personality table by display name. -/
def Player.profile (p : Player) : Option BotProfile := BOT_PROFILES.lookup p.name

/-- Player.reset_for_new_hand. -/
def reset_for_new_hand (p : Player) : Player :=
  { p with hole_cards := [], in_hand := 0 < p.stack, has_folded := false,
           has_all_in := false, contribution_this_round := 0, total_contribution := 0 }

/-- Action record (dataclass Action; renamed, Mathlib already takes `Action`). -/
structure GameAction where
  player_id : ℕ
  action_type : String
  amount : ℤ
  street : String
deriving DecidableEq, Repr

/-- Table state (dataclass GameState). -/
structure GameState where
  players : List Player
  small_blind_amount : ℤ
  big_blind_amount : ℤ
  deck : List Card := []
  community_cards : List Card := []
  pot : ℤ := 0
  button_seat : ℕ := 0
  current_bet : ℤ := 0
  last_raiser_seat : Option ℕ := none
  betting_round : String := "preflop"
  action_history : List GameAction := []
  current_player_seat : Option ℕ := none
deriving DecidableEq, Repr

/-- GameState.active_players. -/
def active_players (s : GameState) : List Player :=
  s.players.filter (fun p => p.in_hand && !p.has_folded)

/-- Index of the first player at the given seat; GameState.player_by_seat
raises ValueError when absent (call sites only pass seats of listed players,
modelled here by the `none` branch of the callers). -/
def player_idx_by_seat (l : List Player) (seat : ℕ) : Option ℕ :=
  findIdxP (fun p => p.seat = seat) l

/-- The engine object: table state plus the two UI fields of PokerGame. -/
structure PokerGame where
  state : GameState
  last_event : String := "Game created."
  last_winner : Option String := none
deriving DecidableEq, Repr

instance : Inhabited PokerGame :=
  ⟨{ state := { players := [], small_blind_amount := 5, big_blind_amount := 10 } }⟩

/-- PokerGame.__init__. `seat_perm` models random.shuffle of list(range(n)) and
`button_pick` models random.choice(seats); ValueError on a player count outside
[2, 8] is the `none` result. -/
def mk_poker_game (player_names : List String) (starting_stack : ℤ) (small_blind : ℤ)
    (big_blind : ℤ) (seat_perm : List ℕ) (button_pick : ℕ) : Option PokerGame :=
  if 2 ≤ player_names.length ∧ player_names.length ≤ 8 then
    let players := player_names.enum.map (fun pair =>
      { id := pair.1, name := pair.2, is_human := pair.2 = "HUMAN",
        stack := starting_stack, seat := seat_perm.getD pair.1 0,
        starting_stack := starting_stack : Player })
    some { state := { players := players, small_blind_amount := small_blind,
                      big_blind_amount := big_blind,
                      button_seat := seat_perm.getD (button_pick % seat_perm.length) 0 } }
  else none

/-- PokerGame.total_chips: pot + all stacks, the conserved quantity. -/
def total_chips (g : PokerGame) : ℤ :=
  g.state.pot + (g.state.players.map Player.stack).sum

-- ---------- poker_engine.py : internal mechanics ----------

/-- Python list.pop(): removes and returns the LAST element. On an empty deck
the source raises IndexError; that case returns a junk card here and is
unreachable within one dealt hand (at most 2n+8 of 52 cards are consumed). -/
def listPop (l : List Card) : Card × List Card :=
  match l.getLast? with
  | some c => (c, l.dropLast)
  | none => (⟨'?', '?'⟩, [])

/-- PokerGame._next_occupied_seat. The RuntimeError on an empty active list is
the `none` result. -/
def next_occupied_seat (s : GameState) (seat : ℕ) : Option ℕ :=
  let active_seats := sortedDedup ((s.players.filter (fun p => p.in_hand && !p.has_folded)).map Player.seat)
  match active_seats with
  | [] => none
  | a :: _ =>
    if active_seats.contains seat then
      some (active_seats.getD ((idx_of seat active_seats + 1) % active_seats.length) 0)
    else some a

/-- PokerGame._find_big_blind_seat. -/
def find_big_blind_seat (s : GameState) : Option ℕ :=
  (next_occupied_seat s s.button_seat).bind (fun sb => next_occupied_seat s sb)

/-- PokerGame._first_to_act_preflop. -/
def first_to_act_preflop (s : GameState) : Option ℕ :=
  (find_big_blind_seat s).bind (fun bb => next_occupied_seat s bb)

/-- PokerGame._first_to_act_postflop. -/
def first_to_act_postflop (s : GameState) : Option ℕ :=
  next_occupied_seat s s.button_seat

/-- PokerGame._advance_button: scan seats after the button (wrapping once past
the maximum) for a player with chips. If no player has chips the source loops
forever; that case leaves the button unchanged here. -/
def advance_button (s : GameState) : GameState :=
  match s.players.map Player.seat with
  | [] => s
  | a :: rest =>
    let mn := rest.foldl Nat.min a
    let mx := rest.foldl Nat.max a
    let cands := List.range' (s.button_seat + 1) (mx - s.button_seat) ++
      List.range' mn (s.button_seat + 1 - mn)
    match cands.find? (fun c => s.players.any (fun p => p.seat = c && 0 < p.stack)) with
    | some c => { s with button_seat := c }
    | none => s

/-- PokerGame._take_bet, acting on the player at list index i (the source
mutates the aliased Player object). -/
def take_bet (s : GameState) (i : ℕ) (amount : ℤ) : GameState :=
  { s with
    players := listModify (fun p =>
      { p with stack := p.stack - amount,
               contribution_this_round := p.contribution_this_round + amount,
               total_contribution := p.total_contribution + amount,
               has_all_in := if p.stack - amount = 0 then true else p.has_all_in }) i s.players,
    pot := s.pot + amount }

/-- PokerGame._record_action. -/
def record_action (s : GameState) (pid : ℕ) (action_type : String) (amount : ℤ)
    (street : String) : GameState :=
  { s with action_history := s.action_history ++ [⟨pid, action_type, amount, street⟩] }

/-- PokerGame._apply_action, with the acting player given by seat (the `none`
branch is the unreachable ValueError of player_by_seat). -/
def apply_action (s : GameState) (seat : ℕ) (action_type : String) (amount : ℤ) :
    GameState :=
  match player_idx_by_seat s.players seat with
  | none => s
  | some i =>
    let p := s.players.getD i default
    if action_type = "fold" then
      let folded := listModify (fun q => { q with has_folded := true, in_hand := false }) i s.players
      record_action { s with players := folded } p.id "fold" 0 s.betting_round
    else if action_type = "check" then
      record_action s p.id "check" 0 s.betting_round
    else if (["call", "bet", "raise", "all-in"] : List String).contains action_type then
      let to_put_in := min amount p.stack
      let s1 := take_bet s i to_put_in
      let s2 := record_action s1 p.id action_type to_put_in s1.betting_round
      if (["bet", "raise", "all-in"] : List String).contains action_type then
        { s2 with
          current_bet := max s2.current_bet ((s2.players.getD i default).contribution_this_round),
          last_raiser_seat := some seat }
      else s2
    else s

/-- PokerGame._post_blinds. The unreachable no-active-seat RuntimeError and
missing-seat ValueError are the fallthrough branches that leave state as is. -/
def post_blinds (s : GameState) : GameState :=
  match next_occupied_seat s s.button_seat with
  | none => s
  | some sb_seat =>
    match next_occupied_seat s sb_seat with
    | none => s
    | some bb_seat =>
      match player_idx_by_seat s.players sb_seat, player_idx_by_seat s.players bb_seat with
      | some si, some bi =>
        let sb_player := s.players.getD si default
        let sb_amount := min sb_player.stack s.small_blind_amount
        let s1 := record_action (take_bet s si sb_amount) sb_player.id "bet" sb_amount "preflop"
        let bb_player := s1.players.getD bi default
        let bb_amount := min bb_player.stack s.big_blind_amount
        let s2 := record_action (take_bet s1 bi bb_amount) bb_player.id "bet" bb_amount "preflop"
        { s2 with current_bet := s.big_blind_amount, last_raiser_seat := some bb_seat }
      | _, _ => s

/-- One player's turn inside PokerGame._deal_hole_cards. -/
def deal_one_card (s : GameState) (i : ℕ) : GameState :=
  if 0 < (s.players.getD i default).stack then
    let pc := listPop s.deck
    { s with deck := pc.2,
             players := listModify (fun p => { p with hole_cards := p.hole_cards ++ [pc.1] }) i s.players }
  else s

/-- PokerGame._deal_hole_cards: two passes over the players in list order. -/
def deal_hole_cards (s : GameState) : GameState :=
  (List.range s.players.length ++ List.range s.players.length).foldl deal_one_card s

/-- PokerGame._deal_flop: burn one, reveal three. -/
def deal_flop (s : GameState) : GameState :=
  let b := listPop s.deck
  let c1 := listPop b.2
  let c2 := listPop c1.2
  let c3 := listPop c2.2
  { s with deck := c3.2, community_cards := s.community_cards ++ [c1.1, c2.1, c3.1] }

/-- PokerGame._deal_turn: burn one, reveal one. -/
def deal_turn (s : GameState) : GameState :=
  let b := listPop s.deck
  let c := listPop b.2
  { s with deck := c.2, community_cards := s.community_cards ++ [c.1] }

/-- PokerGame._deal_river: burn one, reveal one. -/
def deal_river (s : GameState) : GameState :=
  let b := listPop s.deck
  let c := listPop b.2
  { s with deck := c.2, community_cards := s.community_cards ++ [c.1] }

/-- PokerGame._reset_street_for_players. -/
def reset_street_for_players (s : GameState) : GameState :=
  let newPlayers := s.players.map (fun p => { p with contribution_this_round := 0 })
  let s1 := { s with players := newPlayers, current_bet := 0, last_raiser_seat := none }
  if s1.betting_round = "preflop" then
    { s1 with current_player_seat := first_to_act_preflop s1 }
  else
    { s1 with current_player_seat := first_to_act_postflop s1 }

/-- Indices (into the players list) of the active players, in list order:
the positions of GameState.active_players. -/
def active_indices (l : List Player) : List ℕ :=
  (List.range l.length).filter (fun i => (l.getD i default).in_hand && !(l.getD i default).has_folded)

/-- Award the whole pot to the player at list index i and record the winner. -/
def award_pot (g : PokerGame) (i : ℕ) : PokerGame :=
  let s := g.state
  { g with
    state := { s with
      players := listModify (fun p => { p with stack := p.stack + s.pot }) i s.players,
      pot := 0 },
    last_winner := some ((s.players.getD i default).name) }

/-- PokerGame._handle_showdown_or_win. The source resolves a multi-way
showdown with random.choice over the active players; `pick` is that draw,
selecting index pick mod (number of active players). -/
def handle_showdown_or_win (pick : ℕ) (g : PokerGame) : PokerGame :=
  let idxs := active_indices g.state.players
  match idxs with
  | [] => { g with last_winner := none }
  | [i] => award_pot g i
  | _ :: _ :: _ => award_pot g (idxs.getD (pick % idxs.length) 0)

-- ---------- poker_engine.py : hand strength + decisions ----------

/-- PokerGame._hand_strength. Fewer than two hole cards scores 0; more than two
would be an unpack ValueError in the source (holes never exceed two). -/
def hand_strength (p : Player) : ℚ :=
  match p.hole_cards with
  | [c1, c2] =>
    let i1 := rank_index c1.rank
    let i2 := rank_index c2.rank
    let base : ℚ := ((Nat.max i1 i2 : ℕ) : ℚ) / ((RANKS.length : ℚ) - 1)
    let base := base + (if c1.rank = c2.rank then (0.4 : ℚ) else 0)
    let base := base + (if c1.suit = c2.suit then (0.1 : ℚ) else 0)
    let base := base + (if ((i1 : ℤ) - (i2 : ℤ)).natAbs = 1 then (0.05 : ℚ) else 0)
    qmax 0 (qmin 1 base)
  | _ => 0

/-- PokerGame._human_choice_to_action. -/
def human_choice_to_action (s : GameState) (p : Player) (choice : String)
    (human_amount : Option ℤ) : String × ℤ :=
  let to_call := max 0 (s.current_bet - p.contribution_this_round)
  let can_check := to_call = 0
  if choice = "fold" then ("fold", 0)
  else if choice = "check_call" then
    if can_check then ("check", 0) else ("call", min to_call p.stack)
  else if choice = "bet_raise" then
    let target_total :=
      match human_amount with
      | some t => t
      | none =>
        if can_check then max (s.big_blind_amount * 2) (Int.tdiv p.stack 4)
        else max (s.current_bet * 2) (s.current_bet + s.big_blind_amount) + p.contribution_this_round
    let max_total := p.contribution_this_round + p.stack
    let target_total := max s.big_blind_amount (min target_total max_total)
    if can_check then ("bet", target_total)
    else
      let amount := target_total - p.contribution_this_round
      if amount ≤ to_call then ("call", min to_call p.stack)
      else ("raise", amount)
  else ("check", 0)

/-- The random draws a single bot decision can consume: `a` is the first
random.random() (the looseness test), `b` the second (the bet/raise-tendency
test), `u` the random.uniform(2.0, 4.0) raise multiplier. -/
structure BotRand where
  a : ℚ
  b : ℚ
  u : ℚ
deriving DecidableEq, Repr

/-- PokerGame._bot_decision. Returns (action, amount, mood); the source sets
player.mood in place before deciding, so the caller stores the third
component. `int(... * 0.6)` on a nonnegative int times an exact binary float
is plain truncation. -/
def bot_decision (s : GameState) (p : Player) (rnd : BotRand) : String × ℤ × String :=
  let profile := (Player.profile p).getD ⟨"Default", 0.4, 0.5, 0.2⟩
  let ratio : ℚ := if 0 < p.starting_stack then (p.stack : ℚ) / (p.starting_stack : ℚ) else 1
  let mood := if (1.5 : ℚ) ≤ ratio then "heater"
              else if ratio ≤ (0.7 : ℚ) then "tilt" else "neutral"
  let looseness := profile.looseness
  let aggression := profile.aggression
  let bluffiness := profile.bluffiness
  let looseness := looseness + (if mood = "heater" then (0.1 : ℚ) else 0) -
    (if mood = "tilt" ∧ ¬ ((0.5 : ℚ) < profile.aggression) then (0.1 : ℚ) else 0)
  let aggression := aggression + (if mood = "heater" then (0.1 : ℚ) else 0) +
    (if mood = "tilt" ∧ (0.5 : ℚ) < profile.aggression then (0.1 : ℚ) else 0)
  let looseness := qmax 0 (qmin 1 looseness)
  let aggression := qmax 0 (qmin 1 aggression)
  let can_check := s.current_bet = p.contribution_this_round
  let to_call := max 0 (s.current_bet - p.contribution_this_round)
  let strength := hand_strength p
  let desire := strength * 0.7 + looseness * 0.3
  if p.stack ≤ 0 then ("check", 0, mood)
  else if can_check then
    if desire < 0.2 ∧ looseness < rnd.a then ("check", 0, mood)
    else
      let bet_tendency := aggression * 0.6 + strength * 0.4
      if rnd.b < bet_tendency then
        let base := max s.big_blind_amount (qtrunc (((s.pot + s.big_blind_amount : ℤ) : ℚ) * 0.6))
        let bet_size := min base (qtrunc ((p.stack : ℚ) * 0.6))
        let bet_size := max s.big_blind_amount bet_size
        ("bet", bet_size, mood)
      else ("check", 0, mood)
  else if to_call ≤ 0 then ("check", 0, mood)
  else
    let pot_odds : ℚ :=
      if 0 < s.pot + to_call then (to_call : ℚ) / ((s.pot + to_call : ℤ) : ℚ) else 0
    if desire + 0.1 < pot_odds ∧ looseness < rnd.a then ("fold", 0, mood)
    else
      let raise_tendency := aggression * (strength + bluffiness) / 2
      if rnd.b < raise_tendency then
        let raise_size := qtrunc ((to_call : ℚ) * rnd.u)
        let raise_size := min raise_size p.stack
        if raise_size ≤ to_call then ("call", min to_call p.stack, mood)
        else ("raise", raise_size, mood)
      else ("call", min to_call p.stack, mood)

-- ---------- poker_engine.py : public operations ----------

/-- The per-seat action loop of run_street_with_human_choice. The oracle gives
each seat its bot draws. -/
def street_loop (choice : String) (human_amount : Option ℤ) (oracle : ℕ → BotRand) :
    List ℕ → GameState → GameState
  | [], s => s
  | seat :: rest, s =>
    match player_idx_by_seat s.players seat with
    | none => street_loop choice human_amount oracle rest s
    | some i =>
      let p := s.players.getD i default
      if !p.in_hand || p.has_folded || p.has_all_in then
        street_loop choice human_amount oracle rest s
      else if p.is_human then
        let act := human_choice_to_action s p choice human_amount
        street_loop choice human_amount oracle rest (apply_action s seat act.1 act.2)
      else
        let dec := bot_decision s p (oracle seat)
        let s1 := { s with players := listModify (fun q => { q with mood := dec.2.2 }) i s.players }
        street_loop choice human_amount oracle rest (apply_action s1 seat dec.1 dec.2.1)

/-- PokerGame.start_new_hand. `shuffled_deck` is the outcome of
create_deck()'s random.shuffle. -/
def start_new_hand (shuffled_deck : List Card) (g : PokerGame) : PokerGame :=
  let s := g.state
  let s := { s with players := s.players.map reset_for_new_hand,
                    deck := shuffled_deck, community_cards := [], pot := 0,
                    current_bet := 0, last_raiser_seat := none,
                    betting_round := "preflop", action_history := [] }
  let s := advance_button s
  let s := post_blinds s
  let s := deal_hole_cards s
  { state := s, last_event := "New hand started.", last_winner := none }

/-- PokerGame.run_street_with_human_choice. `oracle` supplies every bot's
random draws for this street, `pick` the random.choice draw of a potential
multi-way showdown. -/
def run_street_with_human_choice (choice : String) (human_amount : Option ℤ)
    (oracle : ℕ → BotRand) (pick : ℕ) (g : PokerGame) : PokerGame :=
  let s := g.state
  if s.betting_round = "finished" then
    { g with last_event := "Hand already finished. Start a new hand." }
  else
    let street_before := s.betting_round
    let s := reset_street_for_players s
    let actives := s.players.filter (fun p => p.in_hand && !p.has_folded)
    if actives.length ≤ 1 then
      let g1 := handle_showdown_or_win pick { g with state := s }
      { g1 with state := { g1.state with betting_round := "finished" } }
    else
      let active_seats := sortedDedup (actives.map Player.seat)
      let start_index :=
        match s.current_player_seat with
        | some cp => if active_seats.contains cp then idx_of cp active_seats else 0
        | none => 0
      let ordered_seats := active_seats.drop start_index ++ active_seats.take start_index
      let s := street_loop choice human_amount oracle ordered_seats s
      let active_after := active_players s
      let g2 :=
        if active_after.length ≤ 1 ∨ s.betting_round = "river" then
          let g1 := handle_showdown_or_win pick { g with state := s }
          { g1 with state := { g1.state with betting_round := "finished" } }
        else if s.betting_round = "preflop" then
          { g with state := { deal_flop s with betting_round := "flop" } }
        else if s.betting_round = "flop" then
          { g with state := { deal_turn s with betting_round := "turn" } }
        else if s.betting_round = "turn" then
          { g with state := { deal_river s with betting_round := "river" } }
        else { g with state := s }
      { g2 with last_event := "On " ++ street_before.toUpper ++ ", you chose " ++
          (choice.replace "_" "/").toUpper ++ "." }

-- ---------- concrete instances used by the theorems ----------

/-- The conserved quantity on a raw table state (total_chips without the
PokerGame wrapper). -/
def state_chips (s : GameState) : ℤ := s.pot + (s.players.map Player.stack).sum

/-- A two-player river snapshot about to be resolved: Alice holds two aces,
Bob holds seven-deuce offsuit, both are still in the hand, the pot is 100 and
the board has no pair, flush or straight for Bob. -/
def showdown_game : PokerGame :=
  { state :=
    { players :=
        [{ id := 0, name := "Alice", is_human := false, stack := 950, seat := 0,
           hole_cards := [⟨'A','h'⟩, ⟨'A','d'⟩], total_contribution := 50,
           starting_stack := 1000 },
         { id := 1, name := "Bob", is_human := true, stack := 950, seat := 1,
           hole_cards := [⟨'7','c'⟩, ⟨'2','d'⟩], total_contribution := 50,
           starting_stack := 1000 }],
      small_blind_amount := 5, big_blind_amount := 10,
      community_cards := [⟨'K','s'⟩, ⟨'8','d'⟩, ⟨'3','c'⟩, ⟨'Q','s'⟩, ⟨'4','h'⟩],
      pot := 100, button_seat := 0, betting_round := "river" },
    last_event := "", last_winner := none }

/-- A two-player game right after construction (seat shuffle drawn as the
identity, button draw 0). -/
def fresh_game : PokerGame :=
  (mk_poker_game ["HUMAN", "Balanced Ben"] 1000 5 10 [0, 1] 0).getD default

/-- The same game after its first hand was dealt (deck drawn unshuffled):
blinds of 5 and 10 sit in the pot, every chip still accounted for. -/
def dealt_game : PokerGame := start_new_hand create_deck fresh_game

/-- A finished two-player hand, as run_street_with_human_choice leaves one
behind after a resolved showdown. -/
def finished_game : PokerGame :=
  { state :=
    { players :=
        [{ id := 0, name := "HUMAN", is_human := true, stack := 1060, seat := 0,
           hole_cards := [⟨'K','d'⟩, ⟨'K','c'⟩], in_hand := true,
           total_contribution := 60, starting_stack := 1000 },
         { id := 1, name := "Nit Neil", is_human := false, stack := 940, seat := 1,
           hole_cards := [⟨'9','h'⟩, ⟨'9','s'⟩], in_hand := false, has_folded := true,
           total_contribution := 60, starting_stack := 1000 }],
      small_blind_amount := 5, big_blind_amount := 10,
      community_cards := [⟨'2','s'⟩, ⟨'8','d'⟩, ⟨'3','c'⟩, ⟨'Q','s'⟩, ⟨'4','h'⟩],
      pot := 0, button_seat := 1, current_bet := 20,
      betting_round := "finished" },
    last_event := "On RIVER, you chose BET/RAISE.", last_winner := some "HUMAN" }

-- ---------- helper lemmas : list surgery and the chip sum ----------

theorem listModify_nil (f : α → α) (i : ℕ) : listModify f i [] = [] := by
  cases i <;> rfl

theorem listModify_oob (f : α → α) : ∀ (i : ℕ) (l : List α), l.length ≤ i →
    listModify f i l = l := by
  intro i l
  induction l generalizing i with
  | nil => intro _; exact listModify_nil f i
  | cons a as ih =>
    intro h
    cases i with
    | zero => simp at h
    | succ n => simp [listModify, ih n (by simpa using h)]

theorem listModify_length (f : α → α) : ∀ (i : ℕ) (l : List α),
    (listModify f i l).length = l.length := by
  intro i l
  induction l generalizing i with
  | nil => rw [listModify_nil]
  | cons a as ih => cases i with
    | zero => rfl
    | succ n => simp [listModify, ih n]

theorem stack_sum_listModify (f : Player → Player) (d : ℤ)
    (hf : ∀ p, (f p).stack = p.stack + d) :
    ∀ (i : ℕ) (l : List Player), i < l.length →
      ((listModify f i l).map Player.stack).sum = (l.map Player.stack).sum + d := by
  intro i l
  induction l generalizing i with
  | nil => intro h; simp at h
  | cons a as ih =>
    intro h
    cases i with
    | zero => simp [listModify, hf a]; ring
    | succ n =>
      have hn : n < as.length := by simpa using h
      simp [listModify, ih n hn]; ring

theorem stack_sum_listModify_keep (f : Player → Player)
    (hf : ∀ p, (f p).stack = p.stack) (i : ℕ) (l : List Player) :
    ((listModify f i l).map Player.stack).sum = (l.map Player.stack).sum := by
  by_cases h : i < l.length
  · have := stack_sum_listModify f 0 (fun p => by rw [hf]; ring) i l h
    simpa using this
  · rw [listModify_oob f i l (le_of_not_lt h)]

theorem stack_sum_map (f : Player → Player) (hf : ∀ p, (f p).stack = p.stack)
    (l : List Player) :
    ((l.map f).map Player.stack).sum = (l.map Player.stack).sum := by
  induction l with
  | nil => rfl
  | cons a as ih =>
    simp only [List.map_cons, List.sum_cons, hf]
    rw [ih]

theorem findIdxP_lt (pred : α → Bool) : ∀ (l : List α) (i : ℕ),
    findIdxP pred l = some i → i < l.length := by
  intro l
  induction l with
  | nil => intro i h; simp [findIdxP] at h
  | cons a as ih =>
    intro i h
    simp only [List.length_cons]
    by_cases hp : pred a
    · simp [findIdxP, hp] at h
      omega
    · simp [findIdxP, hp] at h
      obtain ⟨j, hj, rfl⟩ := h
      have := ih j hj
      omega

theorem mem_active_indices_lt (l : List Player) (i : ℕ) (h : i ∈ active_indices l) :
    i < l.length := by
  unfold active_indices at h
  simp only [List.mem_filter, List.mem_range] at h
  exact h.1

theorem getD_mod_mem (l : List ℕ) (k : ℕ) (h : l ≠ []) : l.getD (k % l.length) 0 ∈ l := by
  have hlen : 0 < l.length := List.length_pos.mpr h
  have hk : k % l.length < l.length := Nat.mod_lt _ hlen
  rw [List.getD_eq_getElem?_getD, List.getElem?_eq_getElem hk, Option.getD_some]
  exact List.getElem_mem hk

-- ---------- chips invariance of each engine operation ----------

theorem total_chips_eq_state_chips (g : PokerGame) : total_chips g = state_chips g.state := rfl

theorem state_chips_take_bet (s : GameState) (i : ℕ) (a : ℤ)
    (h : i < s.players.length) : state_chips (take_bet s i a) = state_chips s := by
  unfold state_chips take_bet
  simp only
  rw [stack_sum_listModify _ (-a) (fun p => by simp; ring) i _ h]
  ring

theorem state_chips_record_action (s : GameState) (pid : ℕ) (t : String) (a : ℤ)
    (st : String) : state_chips (record_action s pid t a st) = state_chips s := rfl

theorem take_bet_players_length (s : GameState) (i : ℕ) (a : ℤ) :
    (take_bet s i a).players.length = s.players.length := by
  unfold take_bet
  simp only
  rw [listModify_length]

theorem state_chips_apply_action (s : GameState) (seat : ℕ) (t : String) (a : ℤ) :
    state_chips (apply_action s seat t a) = state_chips s := by
  unfold apply_action
  cases hf : player_idx_by_seat s.players seat with
  | none => rfl
  | some i =>
    have hi : i < s.players.length := findIdxP_lt _ _ _ hf
    simp only
    split_ifs
    · show s.pot + (List.map Player.stack (listModify _ i s.players)).sum =
        s.pot + (List.map Player.stack s.players).sum
      rw [stack_sum_listModify_keep
        (fun q => { q with has_folded := true, in_hand := false }) (fun p => rfl) i s.players]
    · rfl
    · show state_chips (take_bet s i (min a ((s.players.getD i default).stack))) = state_chips s
      exact state_chips_take_bet s i _ hi
    · show state_chips (take_bet s i (min a ((s.players.getD i default).stack))) = state_chips s
      exact state_chips_take_bet s i _ hi
    · rfl

theorem state_chips_street_loop (choice : String) (amt : Option ℤ) (oracle : ℕ → BotRand) :
    ∀ (seats : List ℕ) (s : GameState),
      state_chips (street_loop choice amt oracle seats s) = state_chips s := by
  intro seats
  induction seats with
  | nil => intro s; rfl
  | cons seat rest ih =>
    intro s
    unfold street_loop
    cases hf : player_idx_by_seat s.players seat with
    | none => exact ih s
    | some i =>
      simp only
      split_ifs
      · exact ih s
      · rw [ih, state_chips_apply_action]
      · rw [ih, state_chips_apply_action]
        show s.pot + (List.map Player.stack (listModify _ i s.players)).sum =
          s.pot + (List.map Player.stack s.players).sum
        rw [stack_sum_listModify_keep
          (fun q => { q with mood := (bot_decision s (s.players.getD i default) (oracle seat)).2.2 })
          (fun p => rfl) i s.players]

theorem state_chips_award_pot (g : PokerGame) (i : ℕ) (h : i < g.state.players.length) :
    state_chips (award_pot g i).state = state_chips g.state := by
  unfold award_pot state_chips
  simp only
  rw [stack_sum_listModify (fun p => { p with stack := p.stack + g.state.pot })
    g.state.pot (fun p => rfl) i _ h]
  ring

theorem state_chips_handle_showdown (pick : ℕ) (g : PokerGame) :
    state_chips (handle_showdown_or_win pick g).state = state_chips g.state := by
  unfold handle_showdown_or_win
  cases hidx : active_indices g.state.players with
  | nil => rfl
  | cons i rest =>
    cases rest with
    | nil =>
      simp only
      refine state_chips_award_pot g i (mem_active_indices_lt _ i ?_)
      rw [hidx]; exact List.mem_cons_self i []
    | cons j rest2 =>
      simp only
      refine state_chips_award_pot g _ (mem_active_indices_lt _ _ ?_)
      have hne : (i :: j :: rest2) ≠ ([] : List ℕ) := by simp
      have := getD_mod_mem (i :: j :: rest2) pick hne
      rw [hidx]
      simpa using this

theorem state_chips_reset_street (s : GameState) :
    state_chips (reset_street_for_players s) = state_chips s := by
  unfold reset_street_for_players
  simp only
  split_ifs <;>
  · show s.pot + _ = _
    rw [stack_sum_map (fun p => { p with contribution_this_round := 0 }) (fun p => rfl)]
    rfl

theorem state_chips_deal_one_card (s : GameState) (i : ℕ) :
    state_chips (deal_one_card s i) = state_chips s := by
  unfold deal_one_card
  split_ifs
  · show s.pot + (List.map Player.stack (listModify _ i s.players)).sum =
      s.pot + (List.map Player.stack s.players).sum
    rw [stack_sum_listModify_keep
      (fun p => { p with hole_cards := p.hole_cards ++ [(listPop s.deck).1] })
      (fun p => rfl) i s.players]
  · rfl

theorem state_chips_deal_fold : ∀ (idxs : List ℕ) (s : GameState),
    state_chips (idxs.foldl deal_one_card s) = state_chips s := by
  intro idxs
  induction idxs with
  | nil => intro s; rfl
  | cons i rest ih =>
    intro s
    rw [List.foldl_cons, ih, state_chips_deal_one_card]

theorem state_chips_deal_hole_cards (s : GameState) :
    state_chips (deal_hole_cards s) = state_chips s := by
  unfold deal_hole_cards
  exact state_chips_deal_fold _ s

theorem state_chips_advance_button (s : GameState) :
    state_chips (advance_button s) = state_chips s := by
  unfold advance_button
  cases s.players.map Player.seat with
  | nil => rfl
  | cons a rest =>
    simp only
    cases (List.range' (s.button_seat + 1) (rest.foldl Nat.max a - s.button_seat) ++
        List.range' (rest.foldl Nat.min a) (s.button_seat + 1 - rest.foldl Nat.min a)).find?
        (fun c => s.players.any (fun p => p.seat = c && 0 < p.stack)) with
    | none => rfl
    | some c => rfl

theorem state_chips_set_cb (X : GameState) (c : ℤ) (r : Option ℕ) :
    state_chips { X with current_bet := c, last_raiser_seat := r } = state_chips X := rfl

theorem state_chips_set_round (X : GameState) (r : String) :
    state_chips { X with betting_round := r } = state_chips X := rfl

theorem state_chips_post_blinds (s : GameState) :
    state_chips (post_blinds s) = state_chips s := by
  unfold post_blinds
  cases next_occupied_seat s s.button_seat with
  | none => rfl
  | some sb_seat =>
    simp only
    cases next_occupied_seat s sb_seat with
    | none => rfl
    | some bb_seat =>
      simp only
      cases hsi : player_idx_by_seat s.players sb_seat with
      | none => rfl
      | some si =>
        cases hbi : player_idx_by_seat s.players bb_seat with
        | none => rfl
        | some bi =>
          simp only
          have hsi2 : si < s.players.length := findIdxP_lt _ _ _ hsi
          have hbi2 : bi < (record_action (take_bet s si
              (min ((s.players.getD si default).stack) s.small_blind_amount))
              (s.players.getD si default).id "bet"
              (min ((s.players.getD si default).stack) s.small_blind_amount)
              "preflop").players.length := by
            show bi < (take_bet s si _).players.length
            rw [take_bet_players_length]
            exact findIdxP_lt _ _ _ hbi
          rw [state_chips_set_cb, state_chips_record_action, state_chips_take_bet _ _ _ hbi2,
            state_chips_record_action, state_chips_take_bet _ _ _ hsi2]

theorem state_chips_deal_flop (s : GameState) : state_chips (deal_flop s) = state_chips s := rfl

theorem state_chips_deal_turn (s : GameState) : state_chips (deal_turn s) = state_chips s := rfl

theorem state_chips_deal_river (s : GameState) : state_chips (deal_river s) = state_chips s := rfl

theorem total_chips_set_state (g : PokerGame) (s : GameState) :
    total_chips { g with state := s } = state_chips s := rfl

theorem total_chips_set_event (g : PokerGame) (e : String) :
    total_chips { g with last_event := e } = total_chips g := rfl

theorem total_chips_showdown_finish (pick : ℕ) (g : PokerGame) :
    total_chips { handle_showdown_or_win pick g with
      state := { (handle_showdown_or_win pick g).state with betting_round := "finished" } } =
    total_chips g := by
  rw [total_chips_eq_state_chips]
  show state_chips { (handle_showdown_or_win pick g).state with betting_round := "finished" } = _
  rw [state_chips_set_round, state_chips_handle_showdown, total_chips_eq_state_chips]

theorem total_chips_start_new_hand (d : List Card) (g : PokerGame) :
    total_chips (start_new_hand d g) = total_chips g - g.state.pot := by
  unfold start_new_hand
  simp only
  rw [total_chips_eq_state_chips]
  show state_chips (deal_hole_cards (post_blinds (advance_button _))) = _
  rw [state_chips_deal_hole_cards, state_chips_post_blinds, state_chips_advance_button]
  show 0 + ((g.state.players.map reset_for_new_hand).map Player.stack).sum = _
  rw [stack_sum_map reset_for_new_hand (fun p => rfl), total_chips_eq_state_chips]
  unfold state_chips
  ring

theorem total_chips_run_street (choice : String) (amt : Option ℤ) (oracle : ℕ → BotRand)
    (pick : ℕ) (g : PokerGame) :
    total_chips (run_street_with_human_choice choice amt oracle pick g) = total_chips g := by
  unfold run_street_with_human_choice
  simp only
  split_ifs
  · rfl
  · rw [total_chips_showdown_finish, total_chips_set_state, state_chips_reset_street,
      total_chips_eq_state_chips]
  · rw [total_chips_set_event, total_chips_showdown_finish, total_chips_set_state,
      state_chips_street_loop, state_chips_reset_street, total_chips_eq_state_chips]
  · rw [total_chips_set_event, total_chips_set_state, state_chips_set_round,
      state_chips_deal_flop, state_chips_street_loop, state_chips_reset_street,
      total_chips_eq_state_chips]
  · rw [total_chips_set_event, total_chips_set_state, state_chips_set_round,
      state_chips_deal_turn, state_chips_street_loop, state_chips_reset_street,
      total_chips_eq_state_chips]
  · rw [total_chips_set_event, total_chips_set_state, state_chips_set_round,
      state_chips_deal_river, state_chips_street_loop, state_chips_reset_street,
      total_chips_eq_state_chips]
  · rw [total_chips_set_event, total_chips_set_state, state_chips_street_loop,
      state_chips_reset_street, total_chips_eq_state_chips]

-- ---------- bridges between the computable clamps and min / max ----------

theorem qmin_eq_min (a b : ℚ) : qmin a b = min a b := by
  unfold qmin
  split_ifs with h
  · rw [min_eq_left h]
  · rw [min_eq_right (le_of_not_le h)]

theorem qmax_eq_max (a b : ℚ) : qmax a b = max a b := by
  unfold qmax
  split_ifs with h
  · rw [max_eq_left h]
  · rw [max_eq_right (le_of_not_le h)]

-- ---------- claim theorems ----------

/-- C1: the claim states the showdown winner is a deterministic function of the
players' cards and the board, never a random selection. The code instead awards
the pot to random.choice over the non-folded players: on this fixed two-player
river state (everything about the cards is fixed), the recorded winner is Alice
when the random draw is 0 and Bob when it is 1, and Bob's seven-high stack then
grows by the 100-chip pot even though Alice holds a pair of aces. -/
theorem c1_showdown_winner_depends_on_random_draw :
    (handle_showdown_or_win 0 showdown_game).last_winner = some "Alice" ∧
    (handle_showdown_or_win 1 showdown_game).last_winner = some "Bob" ∧
    ((handle_showdown_or_win 1 showdown_game).state.players.getD 1 default).stack = 1050 := by
  decide

/-- C2 counterexample: the claim asserts that pot + Σ stacks is unchanged by
every public operation on every reachable state. `dealt_game` is reached from a
freshly constructed game by one start_new_hand (total 2000, blinds of 15 in the
pot); invoking start_new_hand again on it zeroes the live pot before posting
new blinds, leaving a total of 1985 — 15 chips are destroyed. -/
theorem c2_start_new_hand_breaks_conservation :
    total_chips dealt_game = 2000 ∧
    dealt_game.state.pot = 15 ∧
    total_chips (start_new_hand create_deck dealt_game) = 1985 ∧
    total_chips (start_new_hand create_deck dealt_game) ≠ total_chips dealt_game := by
  decide

/-- C2 amended: run_street_with_human_choice conserves pot + Σ stacks for every
state, human choice, bot randomness and showdown draw; start_new_hand changes
the total by exactly minus the pot it discards, so it conserves chips precisely
when the pot is zero — which holds whenever the previous hand ended normally. -/
theorem c2_chip_conservation_amended :
    (∀ (choice : String) (amt : Option ℤ) (oracle : ℕ → BotRand) (pick : ℕ) (g : PokerGame),
      total_chips (run_street_with_human_choice choice amt oracle pick g) = total_chips g) ∧
    (∀ (d : List Card) (g : PokerGame),
      total_chips (start_new_hand d g) = total_chips g - g.state.pot) :=
  ⟨fun choice amt oracle pick g => total_chips_run_street choice amt oracle pick g,
   fun d g => total_chips_start_new_hand d g⟩

/-- C3: the claim expects hero Ah Kh on board Qh Jh Th (pot 100, no bet) to be
classified Straight Flush with strength about 0.95. The analyzer has no
straight-flush case at all — it tests the flush count before straights and
never both — so this hand is classified Flush with strength 0.8; the
recommendation and confidence, however, are bet and high as the claim says. -/
theorem c3_royal_board_classified_flush :
    (analyze_postflop_hand [⟨'A','h'⟩, ⟨'K','h'⟩] [⟨'Q','h'⟩, ⟨'J','h'⟩, ⟨'T','h'⟩]).made_hand =
      some "Flush" ∧
    (analyze_postflop_hand [⟨'A','h'⟩, ⟨'K','h'⟩] [⟨'Q','h'⟩, ⟨'J','h'⟩, ⟨'T','h'⟩]).strength = 0.8 ∧
    ((0.8 : ℚ) ≠ 0.95) ∧
    (get_advice mk_poker_coach [⟨'A','h'⟩, ⟨'K','h'⟩] [⟨'Q','h'⟩, ⟨'J','h'⟩, ⟨'T','h'⟩]
      100 0 0 500 "BTN" "flop" 1).recommendation = "bet" ∧
    (get_advice mk_poker_coach [⟨'A','h'⟩, ⟨'K','h'⟩] [⟨'Q','h'⟩, ⟨'J','h'⟩, ⟨'T','h'⟩]
      100 0 0 500 "BTN" "flop" 1).confidence = "high" ∧
    (get_advice mk_poker_coach [⟨'A','h'⟩, ⟨'K','h'⟩] [⟨'Q','h'⟩, ⟨'J','h'⟩, ⟨'T','h'⟩]
      100 0 0 500 "BTN" "flop" 1).hand_strength = some "Flush" := by
  refine ⟨by decide, rfl, by norm_num, by decide, by decide, by decide⟩

/-- C5: the claim (matching the source's own comment "Both J or better") grants
the 0.10 bonus only when both cards rank Jack or higher; the code's test is
index ≥ 8, which is Ten or higher. For Th Qc the code scores 59/60 while the
claimed formula gives 53/60 — the bonus is wrongly granted to a Ten. -/
theorem c5_high_bonus_given_to_tens :
    preflop_hand_strength [⟨'T','h'⟩, ⟨'Q','c'⟩] = 59/60 ∧
    preflop_strength_per_claim [⟨'T','h'⟩, ⟨'Q','c'⟩] = 53/60 ∧
    preflop_hand_strength [⟨'T','h'⟩, ⟨'Q','c'⟩] ≠
      preflop_strength_per_claim [⟨'T','h'⟩, ⟨'Q','c'⟩] := by
  have hT : rank_index 'T' = 8 := by decide
  have hQ : rank_index 'Q' = 10 := by decide
  have hL : RANKS.length = 13 := by decide
  have hc1 : ('T' : Char) ≠ 'Q' := by decide
  have hc2 : ('h' : Char) ≠ 'c' := by decide
  have h1 : preflop_hand_strength [⟨'T','h'⟩, ⟨'Q','c'⟩] = 59/60 := by
    simp only [preflop_hand_strength, hT, hQ, hL]
    norm_num [qmin_eq_min, qmax_eq_max, hc1, hc2]
  have h2 : preflop_strength_per_claim [⟨'T','h'⟩, ⟨'Q','c'⟩] = 53/60 := by
    simp only [preflop_strength_per_claim, hT, hQ]
    norm_num [qmin_eq_min, qmax_eq_max, hc1, hc2]
  refine ⟨h1, h2, ?_⟩
  rw [h1, h2]
  norm_num

-- ---------- C4 helper lemmas ----------

theorem draw_eval_strong (m : Option String) (k : ℕ) (rs : List ℕ)
    (h1 : m ≠ some "Pair") (h2 : m ≠ some "High Card") (h3 : m ≠ none) :
    (draw_eval m k rs = (some "Flush Draw", 9) ∧ k = 4) ∨
    (draw_eval m k rs = (none, 0) ∧ k ≠ 4) := by
  match m with
  | none => exact absurd rfl h3
  | some x =>
    have hx1 : x ≠ "Pair" := fun h => h1 (by rw [h])
    have hx2 : x ≠ "High Card" := fun h => h2 (by rw [h])
    unfold draw_eval
    have hw : ((["Pair", "High Card"] : List String).contains x) = false := by
      simp [hx1, hx2]
    by_cases hk : k = 4
    · left
      simp [hw, hk]
      rintro (h | h)
      · exact absurd h hx1
      · exact absurd h hx2
    · right
      simp [hw, hk]
      rintro (h | h)
      · exact absurd h hx1
      · exact absurd h hx2

theorem made_eval_ne_none (all_cards : List Card) : (made_eval all_cards).1 ≠ none := by
  unfold made_eval
  simp only
  split_ifs <;> simp

theorem analyze_made_hand_eq (hero community : List Card) :
    (analyze_postflop_hand hero community).made_hand = (made_eval (hero ++ community)).1 := rfl

theorem analyze_draw_type_eq (hero community : List Card) :
    (analyze_postflop_hand hero community).draw_type =
      (draw_eval (made_eval (hero ++ community)).1 (max_same_suit_of (hero ++ community))
        (ranks_desc_of (hero ++ community))).1 := rfl

theorem analyze_outs_eq (hero community : List Card) :
    (analyze_postflop_hand hero community).outs =
      (draw_eval (made_eval (hero ++ community)).1 (max_same_suit_of (hero ++ community))
        (ranks_desc_of (hero ++ community))).2 := rfl

-- ---------- C4 theorems ----------

/-- C4 counterexample: the claim says a classification stronger than a pair
comes with no draw and zero outs. Aces full of hearts draw: hero Ah Ad on
board As 7h 2h 3h is Three of a Kind, yet the analysis also reports a Flush
Draw with 9 outs, because the flush-draw test is not gated on the made hand. -/
theorem c4_trips_with_flush_draw_counterexample :
    (analyze_postflop_hand [⟨'A','h'⟩, ⟨'A','d'⟩] [⟨'A','s'⟩, ⟨'7','h'⟩, ⟨'2','h'⟩, ⟨'3','h'⟩]).made_hand =
      some "Three of a Kind" ∧
    (analyze_postflop_hand [⟨'A','h'⟩, ⟨'A','d'⟩] [⟨'A','s'⟩, ⟨'7','h'⟩, ⟨'2','h'⟩, ⟨'3','h'⟩]).draw_type =
      some "Flush Draw" ∧
    (analyze_postflop_hand [⟨'A','h'⟩, ⟨'A','d'⟩] [⟨'A','s'⟩, ⟨'7','h'⟩, ⟨'2','h'⟩, ⟨'3','h'⟩]).outs = 9 := by
  decide

/-- C4 amended: when the made hand is stronger than a pair, the straight-draw
detection is indeed skipped, so the only draw the analysis can report is a
flush draw — reported, with 9 outs, exactly when some suit occurs on exactly
four of the cards; otherwise no draw and zero outs. -/
theorem c4_strong_hands_draws_amended (hero community : List Card)
    (h1 : (analyze_postflop_hand hero community).made_hand ≠ some "Pair")
    (h2 : (analyze_postflop_hand hero community).made_hand ≠ some "High Card") :
    ((analyze_postflop_hand hero community).draw_type = some "Flush Draw" ∧
     (analyze_postflop_hand hero community).outs = 9 ∧
     max_same_suit_of (hero ++ community) = 4) ∨
    ((analyze_postflop_hand hero community).draw_type = none ∧
     (analyze_postflop_hand hero community).outs = 0 ∧
     max_same_suit_of (hero ++ community) ≠ 4) := by
  rw [analyze_made_hand_eq] at h1 h2
  rcases draw_eval_strong _ (max_same_suit_of (hero ++ community))
      (ranks_desc_of (hero ++ community)) h1 h2 (made_eval_ne_none _) with ⟨he, hk⟩ | ⟨he, hk⟩
  · left
    rw [analyze_draw_type_eq, analyze_outs_eq, he]
    exact ⟨rfl, rfl, hk⟩
  · right
    rw [analyze_draw_type_eq, analyze_outs_eq, he]
    exact ⟨rfl, rfl, hk⟩

/-- Witness for C4's amended theorem at the counterexample input: the trips
hand with four hearts falls into the flush-draw disjunct. -/
theorem c4_strong_hands_draws_amended_witness :
    ((analyze_postflop_hand [⟨'A','h'⟩, ⟨'A','d'⟩] [⟨'A','s'⟩, ⟨'7','h'⟩, ⟨'2','h'⟩, ⟨'3','h'⟩]).draw_type =
        some "Flush Draw" ∧
      (analyze_postflop_hand [⟨'A','h'⟩, ⟨'A','d'⟩] [⟨'A','s'⟩, ⟨'7','h'⟩, ⟨'2','h'⟩, ⟨'3','h'⟩]).outs = 9 ∧
      max_same_suit_of ([⟨'A','h'⟩, ⟨'A','d'⟩] ++ [⟨'A','s'⟩, ⟨'7','h'⟩, ⟨'2','h'⟩, ⟨'3','h'⟩]) = 4) ∨
    ((analyze_postflop_hand [⟨'A','h'⟩, ⟨'A','d'⟩] [⟨'A','s'⟩, ⟨'7','h'⟩, ⟨'2','h'⟩, ⟨'3','h'⟩]).draw_type = none ∧
      (analyze_postflop_hand [⟨'A','h'⟩, ⟨'A','d'⟩] [⟨'A','s'⟩, ⟨'7','h'⟩, ⟨'2','h'⟩, ⟨'3','h'⟩]).outs = 0 ∧
      max_same_suit_of ([⟨'A','h'⟩, ⟨'A','d'⟩] ++ [⟨'A','s'⟩, ⟨'7','h'⟩, ⟨'2','h'⟩, ⟨'3','h'⟩]) ≠ 4) :=
  c4_strong_hands_draws_amended [⟨'A','h'⟩, ⟨'A','d'⟩] [⟨'A','s'⟩, ⟨'7','h'⟩, ⟨'2','h'⟩, ⟨'3','h'⟩]
    (by decide) (by decide)

/-- C6: running a street on a hand whose betting round is already "finished" is
a no-op apart from the informational last_event message: the whole table state
— players with their stacks, cards, flags and contributions, pot, deck,
community cards, current bet, betting round and action history — is returned
unchanged, for every choice, amount, bot randomness and showdown draw. -/
theorem c6_finished_street_is_noop (choice : String) (amt : Option ℤ)
    (oracle : ℕ → BotRand) (pick : ℕ) (g : PokerGame)
    (h : g.state.betting_round = "finished") :
    (run_street_with_human_choice choice amt oracle pick g).state = g.state := by
  unfold run_street_with_human_choice
  simp [h]

/-- Witness for C6 on a concrete finished two-player hand, with a bet_raise
request that would move chips were the guard absent. -/
theorem c6_finished_street_is_noop_witness :
    finished_game.state.betting_round = "finished" ∧
    (run_street_with_human_choice "bet_raise" (some 500) (fun _ => ⟨0, 0, 3⟩) 0
      finished_game).state = finished_game.state :=
  ⟨rfl, c6_finished_street_is_noop "bet_raise" (some 500) (fun _ => ⟨0, 0, 3⟩) 0
    finished_game rfl⟩

/-- C7: get_advice is deterministic and stateless. The source method reads only
its arguments and self.preflop_ranges, assigns nothing and draws no
randomness, so as a method it returns its receiver unchanged, and a second
call on the post-call object with the same input snapshot returns the
identical Advice value. -/
theorem c7_get_advice_idempotent_stateless (coach : PokerCoach)
    (hero community : List Card) (pot current_bet hero_contribution hero_stack : ℤ)
    (position street : String) (num_opponents : ℤ) :
    (get_advice_method coach hero community pot current_bet hero_contribution hero_stack
      position street num_opponents).2 = coach ∧
    (get_advice_method ((get_advice_method coach hero community pot current_bet
        hero_contribution hero_stack position street num_opponents).2) hero community pot
      current_bet hero_contribution hero_stack position street num_opponents).1 =
    (get_advice_method coach hero community pot current_bet hero_contribution hero_stack
      position street num_opponents).1 :=
  ⟨rfl, rfl⟩

/-- C8: preflop range membership is a deterministic set lookup; "AA" belongs to
all five position ranges of the table and "72o" to none, and those are exactly
the codes _hand_to_code assigns to a pair of aces and to seven-deuce offsuit. -/
theorem c8_aces_in_every_range_seven_deuce_in_none :
    (build_preflop_ranges.all (fun pr => pr.2.contains "AA")) = true ∧
    (build_preflop_ranges.all (fun pr => !pr.2.contains "72o")) = true ∧
    hand_to_code ⟨'A','s'⟩ ⟨'A','h'⟩ = "AA" ∧
    hand_to_code ⟨'7','d'⟩ ⟨'2','c'⟩ = "72o" := by
  decide

/-- C9: the outs-to-probability conversion is min(1, 4·outs/100) with two cards
to come and min(1, 2·outs/100) with one; 9 outs give 0.36 and 0.18, and the
result never exceeds 1 for any cards-to-come argument. -/
theorem c9_outs_to_probability_rule_of_four_and_two (outs : ℕ) :
    outs_to_probability outs 2 = min 1 ((outs : ℚ) * 4 / 100) ∧
    outs_to_probability outs 1 = min 1 ((outs : ℚ) * 2 / 100) ∧
    outs_to_probability 9 2 = 36/100 ∧
    outs_to_probability 9 1 = 18/100 ∧
    (∀ c : ℕ, outs_to_probability outs c ≤ 1) := by
  refine ⟨?_, ?_, ?_, ?_, ?_⟩
  · show qmin 1 ((outs : ℚ) * 4 / 100) = _
    rw [qmin_eq_min]
  · show qmin 1 ((outs : ℚ) * 2 / 100) = _
    rw [qmin_eq_min]
  · show qmin 1 (((9 : ℕ) : ℚ) * 4 / 100) = 36/100
    rw [qmin_eq_min]
    norm_num
  · show qmin 1 (((9 : ℕ) : ℚ) * 2 / 100) = 18/100
    rw [qmin_eq_min]
    norm_num
  · intro c
    unfold outs_to_probability
    split_ifs
    · rw [qmin_eq_min]
      exact min_le_left _ _
    · rw [qmin_eq_min]
      exact min_le_left _ _
    · norm_num

/-- A position string that is none of the five range keys looks up to the MP
range: `dict.get(position, ranges["MP"])` falls through to the default. -/
theorem range_get_unknown_falls_back_to_mp (position : String)
    (h : position ∉ (["UTG", "MP", "CO", "BTN", "SB"] : List String)) :
    range_get build_preflop_ranges position = range_get build_preflop_ranges "MP" := by
  simp only [List.mem_cons, List.not_mem_nil, or_false, not_or] at h
  obtain ⟨h1, h2, h3, h4, h5⟩ := h
  unfold range_get build_preflop_ranges
  simp [List.lookup, beq_eq_false_iff_ne.mpr h1, beq_eq_false_iff_ne.mpr h2,
    beq_eq_false_iff_ne.mpr h3, beq_eq_false_iff_ne.mpr h4, beq_eq_false_iff_ne.mpr h5]

/-- C10: for every position label outside {UTG, MP, CO, BTN, SB} — including
the advertised "BB" — the preflop advisor silently uses the MP opening range,
so in an unopened pot (current bet equal to the hero's street contribution) it
recommends exactly what it would recommend from MP. -/
theorem c10_unknown_position_advised_as_mp (position : String)
    (hpos : position ∉ (["UTG", "MP", "CO", "BTN", "SB"] : List String))
    (hero community : List Card) (pot current_bet hero_contribution hero_stack : ℤ)
    (num_opponents : ℤ) (hunopened : current_bet = hero_contribution) :
    (get_advice mk_poker_coach hero community pot current_bet hero_contribution hero_stack
      position "preflop" num_opponents).recommendation =
    (get_advice mk_poker_coach hero community pot current_bet hero_contribution hero_stack
      "MP" "preflop" num_opponents).recommendation := by
  subst hunopened
  match hero with
  | [] => rfl
  | [c1] => rfl
  | c1 :: c2 :: c3 :: t => rfl
  | [c1, c2] =>
    unfold get_advice preflop_advice
    simp only [if_pos rfl, sub_self, lt_irrefl, false_and, if_false]
    rw [show mk_poker_coach.preflop_ranges = build_preflop_ranges from rfl,
      range_get_unknown_falls_back_to_mp position hpos]
    by_cases hc : hand_to_code c1 c2 ∈ range_get build_preflop_ranges "MP"
    · simp [hc]
    · simp [hc]

/-- Witness for C10 at position "BB" with pocket aces in an unopened pot: both
the BB call and the MP call recommend the same action. -/
theorem c10_unknown_position_advised_as_mp_witness :
    ("BB" ∉ (["UTG", "MP", "CO", "BTN", "SB"] : List String)) ∧
    (get_advice mk_poker_coach [⟨'A','h'⟩, ⟨'A','s'⟩] [] 15 10 10 1000 "BB" "preflop"
      1).recommendation =
    (get_advice mk_poker_coach [⟨'A','h'⟩, ⟨'A','s'⟩] [] 15 10 10 1000 "MP" "preflop"
      1).recommendation :=
  ⟨by decide, c10_unknown_position_advised_as_mp "BB" (by decide) [⟨'A','h'⟩, ⟨'A','s'⟩] []
    15 10 10 1000 1 rfl⟩
